import Mathlib

/-!
Shallow embedding of the spotify-tui command/event dispatch layer
(src/main.rs and src/network.rs).

Remote calls are modelled as oracle inputs: each handler receives the
outcome of the remote call(s) it awaits as an `Except String _` (or
`Option TokenInfo` for the token refresh) argument, and is otherwise a
pure function on the application state.  Rust's `Instant` is modelled
as `Int` (a point on a time line measured in seconds); `Duration`
arithmetic becomes integer arithmetic.  `HashSet<String>` is modelled
as a `List String` kept duplicate-free by the insert operation.
`item.track.unwrap()` is a partial operation and is modelled by
returning `Option`: `none` models the panic.

The `App` methods live in app.rs, which is not part of the two given
source files; the handful that the dispatch layer calls
(`handle_error`, `push_navigation_stack`, `pop_navigation_stack`,
`get_current_route`, `set_saved_tracks_to_table`, `add_pages`) are
modelled from the spec and marked as such in their doc comments.
-/

namespace SpotifyTui

/-- rspotify `TokenInfo`: the fields used here are the access token and the
reported lifetime in seconds (`expires_in`). -/
structure TokenInfo where
  access_token : String
  expires_in : Nat
deriving DecidableEq

/-- rspotify `Spotify` client handle, abstracted to the credential it was
built from (`client_credentials_manager` holds the token info). -/
structure Spotify where
  token_info : TokenInfo
deriving DecidableEq

/-- rspotify `FullTrack`: only the `id` field is consulted by this layer. -/
structure FullTrack where
  id : Option String
deriving DecidableEq

/-- rspotify `PlaylistTrack`: its `track` field is an `Option<FullTrack>`. -/
structure PlaylistTrack where
  track : Option FullTrack
deriving DecidableEq

/-- rspotify `SavedTrack`: its `track` field is always present. -/
structure SavedTrack where
  track : FullTrack
deriving DecidableEq

/-- rspotify `Page<T>`: only the `items` field is consulted by this layer. -/
structure Page (α : Type) where
  items : List α
deriving DecidableEq

structure SimplifiedPlaylist where
  id : String
deriving DecidableEq

structure FullArtist where
  id : String
deriving DecidableEq

structure SimplifiedAlbum where
  id : String
deriving DecidableEq

structure PrivateUser where
  id : String
deriving DecidableEq

structure Device where
  id : String
deriving DecidableEq

/-- rspotify `DevicePayload`: a list of devices. -/
structure DevicePayload where
  devices : List Device
deriving DecidableEq

structure SearchTracks where
  tracks : Page FullTrack
deriving DecidableEq

structure SearchArtists where
  artists : Page FullArtist
deriving DecidableEq

structure SearchAlbums where
  albums : Page SimplifiedAlbum
deriving DecidableEq

structure SearchPlaylists where
  playlists : Page SimplifiedPlaylist
deriving DecidableEq

/-- Route identities referenced by main.rs / network.rs (app.rs has more). -/
inductive RouteId where
  | Home
  | Search
  | TrackTable
  | SelectedDevice
deriving DecidableEq

/-- Focused-region identities referenced by main.rs / network.rs. -/
inductive ActiveBlock where
  | Empty
  | Input
  | HelpMenu
  | Error
  | SelectDevice
  | TrackTable
  | Analysis
deriving DecidableEq

/-- A navigation entry: (route identity, focused-region identity). -/
structure Route where
  id : RouteId
  active_block : ActiveBlock
deriving DecidableEq

inductive TrackTableContext where
  | MyPlaylists
  | SavedTracks
  | MadeForYou
deriving DecidableEq

/-- `app.track_table`: the displayed track table. -/
structure TrackTable where
  tracks : List FullTrack
  context : Option TrackTableContext
deriving DecidableEq

/-- `app.search_results`: the four category result collections. -/
structure SearchResults where
  tracks : Option SearchTracks
  artists : Option SearchArtists
  albums : Option SearchAlbums
  playlists : Option SearchPlaylists
deriving DecidableEq

/-- The shared application state fields touched by the dispatch layer.
The navigation stack is kept top-first (head of the list is the top). -/
structure App where
  navigation_stack : List Route
  api_error : Option String
  playlists : Option (Page SimplifiedPlaylist)
  selected_playlist_index : Option Nat
  devices : Option DevicePayload
  selected_device_index : Option Nat
  search_results : SearchResults
  track_table : TrackTable
  playlist_tracks : Option (Page PlaylistTrack)
  made_for_you_tracks : Option (Page PlaylistTrack)
  saved_tracks_pages : List (Page SavedTrack)
  liked_song_ids_set : List String
  current_playback_context : Option (Option FullTrack)
  instant_since_last_current_playback_poll : Int
  user : Option PrivateUser
deriving DecidableEq

/-- Modelled from the spec: `App::handle_error` (app.rs, not among the given
sources) writes the failure into the shared state's current-error field
("errors from a remote call are ... written into shared state's
current-error field"). -/
def handle_error (a : App) (e : String) : App :=
  { a with api_error := some e }

/-- Modelled from the spec: `App::push_navigation_stack` (app.rs, not among
the given sources) "always allowed; appends to top". -/
def push_navigation_stack (route_id : RouteId) (block : ActiveBlock) (a : App) : App :=
  { a with navigation_stack := { id := route_id, active_block := block } :: a.navigation_stack }

/-- Modelled from the spec: `App::pop_navigation_stack` (app.rs, not among
the given sources) "removes top unless stack has exactly one entry, in
which case it signals cannot-pop"; the popped entry is returned to the
caller so it can apply the search skip-one rule. -/
def pop_navigation_stack (a : App) : Option Route × App :=
  match a.navigation_stack with
  | [] => (none, a)
  | [r] => (none, { a with navigation_stack := [r] })
  | r :: rest => (some r, { a with navigation_stack := rest })

/-- Modelled from the spec: `App::get_current_route` (app.rs, not among the
given sources) reads the stack's top entry ("states are implicit in the
stack's top entry"); a default root route is used for the (unreachable)
empty stack. -/
def get_current_route (a : App) : Route :=
  a.navigation_stack.headD { id := RouteId.Home, active_block := ActiveBlock.Empty }

/-- network.rs `IoEvent`: the closed command enumeration. -/
inductive IoEvent where
  | GetCurrentPlayback
  | RefreshAuthentication
  | GetPlaylists
  | GetDevices
  | GetSearchResults (search_term : String) (country : Option String)
  | SetTracksToTable (tracks : List FullTrack)
  | GetMadeForYouPlaylistTracks (playlist_id : String) (made_for_you_offset : Nat)
  | GetPlaylistTracks (playlist_id : String) (playlist_offset : Nat)
  | GetCurrentSavedTracks (offset : Option Nat) (should_navigate : Bool)
deriving DecidableEq

/-- network.rs `get_spotify` (duplicated in main.rs): builds the client from
the token and computes the expiry instant, set 10 seconds early:
`Instant::now() + Duration::from_secs(expires_in) - Duration::from_secs(10)`. -/
def get_spotify (now : Int) (token_info : TokenInfo) : Spotify × Int :=
  ({ token_info := token_info }, now + (token_info.expires_in : Int) - 10)

/-- network.rs `Network`: the dispatcher's private state. -/
structure Network where
  spotify : Spotify
  spotify_token_expiry : Int
  large_search_limit : Nat
  small_search_limit : Nat
deriving DecidableEq

/-- network.rs `Network::new`. -/
def Network.new (spotify : Spotify) (spotify_token_expiry : Int) : Network :=
  { spotify := spotify, spotify_token_expiry := spotify_token_expiry,
    large_search_limit := 20, small_search_limit := 4 }

/-- `IoEvent::RefreshAuthentication` branch of `handle_network_event`:
on a fresh token, rebuild the client and expiry; on failure (`None`),
only a message is printed -- neither the credential nor the shared
state is touched. -/
def refresh_authentication (token_result : Option TokenInfo) (now : Int)
    (n : Network) (a : App) : Network × App :=
  match token_result with
  | some new_token_info =>
      let p := get_spotify now new_token_info
      ({ n with spotify := p.1, spotify_token_expiry := p.2 }, a)
  | none => (n, a)

/-- network.rs `get_user`: on success store the user, on failure
`handle_error`. -/
def get_user (result : Except String PrivateUser) (a : App) : App :=
  match result with
  | .ok u => { a with user := some u }
  | .error e => handle_error a e

/-- `IoEvent::GetPlaylists` branch of `handle_network_event`: on success
store the page and select index 0 ("Select the first playlist"); on
failure `handle_error`; then `get_user` runs in either case. -/
def handle_get_playlists (playlists : Except String (Page SimplifiedPlaylist))
    (user_result : Except String PrivateUser) (a : App) : App :=
  let a1 :=
    match playlists with
    | .ok p => { a with playlists := some p, selected_playlist_index := some 0 }
    | .error e => handle_error a e
  get_user user_result a1

/-- network.rs `get_devices`: `if let Ok(result)` -- a failure is silently
dropped.  On success the device-selection entry is pushed
unconditionally, and only when the device list is non-empty are the
collection and cursor ("Select the first device in the list") set. -/
def get_devices (result : Except String DevicePayload) (a : App) : App :=
  match result with
  | .ok r =>
      let a1 := push_navigation_stack RouteId.SelectedDevice ActiveBlock.SelectDevice a
      if r.devices.isEmpty then a1
      else { a1 with devices := some r, selected_device_index := some 0 }
  | .error _ => a

/-- `HashSet::insert`: no duplicate is added. -/
def set_insert (s : List String) (id : String) : List String :=
  if id ∈ s then s else id :: s

/-- `HashSet::remove`. -/
def set_remove (s : List String) (id : String) : List String :=
  s.erase id

/-- The merge loop of `current_user_saved_tracks_contains`: for each id (by
position), when `is_saved_vec.get(i)` is present, insert the id when
liked and otherwise remove it when it is in the set. -/
def merge_saved : List String → List Bool → List String → List String
  | [], _, s => s
  | _ :: _, [], s => s
  | id :: ids, is_liked :: rest, s =>
      merge_saved ids rest
        (if is_liked then set_insert s id
         else if id ∈ s then set_remove s id else s)

/-- network.rs `current_user_saved_tracks_contains`: on success merge the
returned booleans into the liked-track set, on failure `handle_error`. -/
def current_user_saved_tracks_contains (ids : List String)
    (result : Except String (List Bool)) (a : App) : App :=
  match result with
  | .ok is_saved_vec =>
      { a with liked_song_ids_set := merge_saved ids is_saved_vec a.liked_song_ids_set }
  | .error e => handle_error a e

/-- network.rs `get_current_playback`: `if let Ok(ctx)` -- a failure is
silently dropped.  When a context is present: if it carries a track with
an id, first run the single-id saved check, then store the context and
the poll timestamp.  The context is modelled by its `item` field. -/
def get_current_playback (context : Except String (Option (Option FullTrack)))
    (saved_result : Except String (List Bool)) (now : Int) (a : App) : App :=
  match context with
  | .ok (some c) =>
      let a1 :=
        match c with
        | some track =>
            match track.id with
            | some track_id => current_user_saved_tracks_contains [track_id] saved_result a
            | none => a
        | none => a
      { a1 with current_playback_context := some c,
                instant_since_last_current_playback_poll := now }
  | .ok none => a
  | .error _ => a

/-- network.rs `set_tracks_to_table`: bulk saved check over the ids present
(`filter_map(|item| item.id)`), then replace the displayed tracks. -/
def set_tracks_to_table (tracks : List FullTrack)
    (saved_result : Except String (List Bool)) (a : App) : App :=
  let a1 := current_user_saved_tracks_contains (tracks.filterMap FullTrack.id) saved_result a
  { a1 with track_table := { a1.track_table with tracks := tracks } }

/-- The per-item extraction `.map(|item| item.track.unwrap()).collect()` of
`set_playlist_tracks_to_table`: `unwrap` is partial, so the extraction
yields `none` (models the panic) when any item lacks a track. -/
def extract_playlist_tracks : List PlaylistTrack → Option (List FullTrack)
  | [] => some []
  | item :: rest =>
      match item.track with
      | none => none
      | some t => (extract_playlist_tracks rest).map (fun ts => t :: ts)

/-- network.rs `set_playlist_tracks_to_table`: extract the tracks (partial)
and hand them to `set_tracks_to_table`. -/
def set_playlist_tracks_to_table (playlist_track_page : Page PlaylistTrack)
    (saved_result : Except String (List Bool)) (a : App) : Option App :=
  (extract_playlist_tracks playlist_track_page.items).map
    (fun tracks => set_tracks_to_table tracks saved_result a)

/-- network.rs `get_playlist_tracks`: `if let Ok(playlist_tracks)` -- a
failure is silently dropped.  On success: table update (may panic),
store the page, and push the track-table entry unless it is already the
current route. -/
def get_playlist_tracks (fetch : Except String (Page PlaylistTrack))
    (saved_result : Except String (List Bool)) (a : App) : Option App :=
  match fetch with
  | .ok playlist_tracks =>
      (set_playlist_tracks_to_table playlist_tracks saved_result a).map (fun a1 =>
        let a2 := { a1 with playlist_tracks := some playlist_tracks }
        if (get_current_route a2).id ≠ RouteId.TrackTable then
          push_navigation_stack RouteId.TrackTable ActiveBlock.TrackTable a2
        else a2)
  | .error _ => some a

/-- network.rs `get_made_for_you_playlist_tracks`: same shape as
`get_playlist_tracks` but stores `made_for_you_tracks`. -/
def get_made_for_you_playlist_tracks (fetch : Except String (Page PlaylistTrack))
    (saved_result : Except String (List Bool)) (a : App) : Option App :=
  match fetch with
  | .ok made_for_you_tracks =>
      (set_playlist_tracks_to_table made_for_you_tracks saved_result a).map (fun a1 =>
        let a2 := { a1 with made_for_you_tracks := some made_for_you_tracks }
        if (get_current_route a2).id ≠ RouteId.TrackTable then
          push_navigation_stack RouteId.TrackTable ActiveBlock.TrackTable a2
        else a2)
  | .error _ => some a

/-- Rust `try_join!` on four futures, by value: the joined operation
succeeds only when all four succeed, and otherwise is the failure of a
failing component. -/
def tryJoin4 {E A B C D : Type} (t : Except E A) (u : Except E B) (v : Except E C)
    (w : Except E D) : Except E (A × B × C × D) :=
  match t with
  | .error e => .error e
  | .ok ra =>
      match u with
      | .error e => .error e
      | .ok rb =>
          match v with
          | .error e => .error e
          | .ok rc =>
              match w with
              | .error e => .error e
              | .ok rd => .ok (ra, rb, rc, rd)

/-- network.rs `get_search_results`: the four category queries are joined;
on joint success, merge the track results into the table and replace the
four result collections; on failure, `handle_error` and nothing else. -/
def get_search_results
    (joined : Except String (SearchTracks × SearchArtists × SearchAlbums × SearchPlaylists))
    (saved_result : Except String (List Bool)) (a : App) : App :=
  match joined with
  | .ok (track_results, artist_results, album_results, playlist_results) =>
      let a1 := set_tracks_to_table track_results.tracks.items saved_result a
      { a1 with search_results :=
          { tracks := some track_results, artists := some artist_results,
            albums := some album_results, playlists := some playlist_results } }
  | .error e => handle_error a e

/-- Modelled from the spec: `App::set_saved_tracks_to_table` (app.rs, not
among the given sources) replaces the displayed track-table contents
with the page's tracks ("(a) replace the displayed track table
contents"). -/
def set_saved_tracks_to_table (saved_track_page : Page SavedTrack) (a : App) : App :=
  { a with track_table :=
      { a.track_table with tracks := saved_track_page.items.map SavedTrack.track } }

/-- Modelled from the spec: `library.saved_tracks.add_pages` (app.rs, not
among the given sources) appends the fetched page to the cached result
pages ("cached result sets"). -/
def add_saved_tracks_page (saved_track_page : Page SavedTrack) (a : App) : App :=
  { a with saved_tracks_pages := a.saved_tracks_pages ++ [saved_track_page] }

/-- network.rs `get_current_user_saved_tracks`: on success update the table,
cache the page, set the table context, and push the track-table entry
exactly when `should_navigate` is set; on failure `handle_error`. -/
def get_current_user_saved_tracks (fetch : Except String (Page SavedTrack))
    (should_navigate : Bool) (a : App) : App :=
  match fetch with
  | .ok saved_tracks =>
      let a1 := set_saved_tracks_to_table saved_tracks a
      let a2 := add_saved_tracks_page saved_tracks a1
      let a3 := { a2 with track_table :=
                    { a2.track_table with context := some TrackTableContext.SavedTracks } }
      if should_navigate then
        push_navigation_stack RouteId.TrackTable ActiveBlock.TrackTable a3
      else a3
  | .error e => handle_error a e

deriving instance DecidableEq for Except

/-- The outcomes of the remote calls a single command may await (the oracle
for one `handle_network_event` invocation). -/
structure RemoteOutcomes where
  now : Int
  token_result : Option TokenInfo
  playlists : Except String (Page SimplifiedPlaylist)
  user_result : Except String PrivateUser
  devices : Except String DevicePayload
  playback : Except String (Option (Option FullTrack))
  saved_contains : Except String (List Bool)
  playlist_tracks_page : Except String (Page PlaylistTrack)
  saved_tracks_page : Except String (Page SavedTrack)
  search_tracks : Except String SearchTracks
  search_artists : Except String SearchArtists
  search_albums : Except String SearchAlbums
  search_playlists : Except String SearchPlaylists
deriving DecidableEq

/-- network.rs `Network::handle_network_event`: total dispatch over the
command enumeration; `none` models a panic inside a handler. -/
def handle_network_event (o : RemoteOutcomes) (e : IoEvent) (n : Network) (a : App) :
    Option (Network × App) :=
  match e with
  | .RefreshAuthentication => some (refresh_authentication o.token_result o.now n a)
  | .GetPlaylists => some (n, handle_get_playlists o.playlists o.user_result a)
  | .GetDevices => some (n, get_devices o.devices a)
  | .GetCurrentPlayback => some (n, get_current_playback o.playback o.saved_contains o.now a)
  | .SetTracksToTable tracks => some (n, set_tracks_to_table tracks o.saved_contains a)
  | .GetSearchResults _ _ =>
      some (n, get_search_results
        (tryJoin4 o.search_tracks o.search_artists o.search_albums o.search_playlists)
        o.saved_contains a)
  | .GetMadeForYouPlaylistTracks _ _ =>
      (get_made_for_you_playlist_tracks o.playlist_tracks_page o.saved_contains a).map
        (fun a1 => (n, a1))
  | .GetPlaylistTracks _ _ =>
      (get_playlist_tracks o.playlist_tracks_page o.saved_contains a).map (fun a1 => (n, a1))
  | .GetCurrentSavedTracks _ should_navigate =>
      some (n, get_current_user_saved_tracks o.saved_tracks_page should_navigate a)

/-- main.rs line 297: the render loop's proactive expiry check,
`if Instant::now() > token_expiry { dispatch(RefreshAuthentication) }`. -/
def should_refresh (now token_expiry : Int) : Bool :=
  decide (token_expiry < now)

/-- main.rs back-key handling (lines 313-327): pop once; when the popped
entry is the search route, pop once more; a `None` result means exit
(`true` in the first component). -/
def back_navigation (a : App) : Bool × App :=
  match pop_navigation_stack a with
  | (some x, a1) =>
      if x.id = RouteId.Search then
        match pop_navigation_stack a1 with
        | (some _, a2) => (false, a2)
        | (none, a2) => (true, a2)
      else (false, a1)
  | (none, a1) => (true, a1)

/-- The whole system as seen by main.rs: the render loop's own copy of the
expiry instant (`token_expiry`, captured once at line 207 before the
copy handed to the worker thread), the dispatcher state, and the shared
application state. -/
structure SystemState where
  ui_token_expiry : Int
  network : Network
  app : App
deriving DecidableEq

/-- One dispatcher step applied to the whole system: the render loop's
expiry copy is not an input of `handle_network_event`. -/
def system_step (o : RemoteOutcomes) (e : IoEvent) (s : SystemState) : Option SystemState :=
  (handle_network_event o e s.network s.app).map
    (fun p => { s with network := p.1, app := p.2 })

/-- The dispatcher's consume loop (`start_tokio`): process the queued
commands in order. -/
def run_events : List (RemoteOutcomes × IoEvent) → SystemState → Option SystemState
  | [], s => some s
  | (o, e) :: rest, s =>
      match system_step o e s with
      | some s1 => run_events rest s1
      | none => none

/-! Concrete sample states and inputs used by the scenario theorems. -/

/-- A concrete application state: fresh start, root route on the stack. -/
def app0 : App :=
  { navigation_stack := [{ id := RouteId.Home, active_block := ActiveBlock.Empty }]
    api_error := none
    playlists := none
    selected_playlist_index := none
    devices := none
    selected_device_index := none
    search_results := { tracks := none, artists := none, albums := none, playlists := none }
    track_table := { tracks := [], context := none }
    playlist_tracks := none
    made_for_you_tracks := none
    saved_tracks_pages := []
    liked_song_ids_set := []
    current_playback_context := none
    instant_since_last_current_playback_poll := 0
    user := none }

/-- A concrete dispatcher state. -/
def network0 : Network :=
  Network.new { token_info := { access_token := "initial-token", expires_in := 3600 } } 90

def routeSearch : Route := { id := RouteId.Search, active_block := ActiveBlock.Input }

def routeTrackTable : Route := { id := RouteId.TrackTable, active_block := ActiveBlock.TrackTable }

def routeHome : Route := { id := RouteId.Home, active_block := ActiveBlock.Empty }

/-- A state whose navigation stack has the search route on top. -/
def appNav : App := { app0 with navigation_stack := [routeSearch, routeTrackTable, routeHome] }

/-- A state whose navigation stack has the track-table route on top. -/
def appTT : App := { app0 with navigation_stack := [routeTrackTable] }

/-- A state that already has one device and a device cursor. -/
def appDev : App :=
  { app0 with devices := some { devices := [{ id := "d1" }] }, selected_device_index := some 0 }

/-- A five-element playlist page. -/
def page5 : Page SimplifiedPlaylist :=
  { items := [{ id := "p1" }, { id := "p2" }, { id := "p3" }, { id := "p4" }, { id := "p5" }] }

/-- A one-element saved-tracks page. -/
def savedPage1 : Page SavedTrack := { items := [{ track := { id := some "t1" } }] }

/-- A one-element playlist-track page whose item carries a track. -/
def ptPage1 : Page PlaylistTrack := { items := [{ track := some { id := some "t1" } }] }

/-- The state produced by a successful playlist-track fetch of `ptPage1`
from `app0`. -/
def appAfterPT : App :=
  (get_playlist_tracks (Except.ok ptPage1) (Except.ok [true]) app0).getD app0

/-- An oracle whose refresh succeeds at instant 50 with a 100-second token
and whose every other call fails. -/
def outcome0 : RemoteOutcomes :=
  { now := 50
    token_result := some { access_token := "fresh-token", expires_in := 100 }
    playlists := Except.error "down"
    user_result := Except.error "down"
    devices := Except.error "down"
    playback := Except.error "down"
    saved_contains := Except.error "down"
    playlist_tracks_page := Except.error "down"
    saved_tracks_page := Except.error "down"
    search_tracks := Except.error "down"
    search_artists := Except.error "down"
    search_albums := Except.error "down"
    search_playlists := Except.error "down" }

/-- A concrete whole-system state whose render-loop expiry copy is 5. -/
def sys0 : SystemState := { ui_token_expiry := 5, network := network0, app := app0 }

/-- The system state after dispatching one successful credential refresh. -/
def sys1 : SystemState :=
  (run_events [(outcome0, IoEvent.RefreshAuthentication)] sys0).getD sys0

/-! Helper lemmas shared by the claim theorems. -/

theorem contains_navigation_stack (ids : List String) (sr : Except String (List Bool)) (a : App) :
    (current_user_saved_tracks_contains ids sr a).navigation_stack = a.navigation_stack := by
  cases sr <;> rfl

theorem set_tracks_navigation_stack (tracks : List FullTrack) (sr : Except String (List Bool))
    (a : App) : (set_tracks_to_table tracks sr a).navigation_stack = a.navigation_stack := by
  simp [set_tracks_to_table, contains_navigation_stack]

theorem extract_playlist_tracks_eq_none (items : List PlaylistTrack) :
    extract_playlist_tracks items = none ↔ ∃ item ∈ items, item.track = none := by
  induction items with
  | nil => simp [extract_playlist_tracks]
  | cons it rest ih =>
      cases h : it.track with
      | none => simp [extract_playlist_tracks, h]
      | some t => simp [extract_playlist_tracks, h, Option.map_eq_none', ih]

theorem system_step_ui_expiry (o : RemoteOutcomes) (e : IoEvent) (s s1 : SystemState) :
    system_step o e s = some s1 → s1.ui_token_expiry = s.ui_token_expiry := by
  unfold system_step
  cases h : handle_network_event o e s.network s.app with
  | none => simp
  | some p =>
      simp only [Option.map_some', Option.some.injEq]
      rintro rfl
      rfl

theorem run_events_ui_expiry :
    ∀ (evs : List (RemoteOutcomes × IoEvent)) (s s1 : SystemState),
      run_events evs s = some s1 → s1.ui_token_expiry = s.ui_token_expiry
  | [], s, s1, h => by
      simp [run_events] at h
      rw [← h]
  | (o, e) :: rest, s, s1, h => by
      rw [run_events] at h
      cases h1 : system_step o e s with
      | none => rw [h1] at h; exact absurd h (by simp)
      | some smid =>
          rw [h1] at h
          rw [run_events_ui_expiry rest smid s1 h]
          exact system_step_ui_expiry o e s smid h1

/-! The claim theorems. -/

/-- C1: if any one of the four search sub-queries (tracks, artists, albums,
playlists) fails, the error field becomes non-empty and none of the four
search-result collections are updated; only when all four succeed are all
four collections replaced. -/
theorem c1_search_fail_fast
    (t : Except String SearchTracks) (u : Except String SearchArtists)
    (v : Except String SearchAlbums) (w : Except String SearchPlaylists)
    (sr : Except String (List Bool)) (a : App) :
    (((∃ e, t = Except.error e) ∨ (∃ e, u = Except.error e) ∨
      (∃ e, v = Except.error e) ∨ (∃ e, w = Except.error e)) →
      (get_search_results (tryJoin4 t u v w) sr a).api_error.isSome = true ∧
      (get_search_results (tryJoin4 t u v w) sr a).search_results = a.search_results) ∧
    (∀ tr ar al pl, t = Except.ok tr → u = Except.ok ar → v = Except.ok al →
      w = Except.ok pl →
      (get_search_results (tryJoin4 t u v w) sr a).search_results =
        { tracks := some tr, artists := some ar, albums := some al,
          playlists := some pl }) := by
  constructor
  · intro h
    cases t <;> cases u <;> cases v <;> cases w <;>
      simp_all [tryJoin4, get_search_results, handle_error]
  · intro tr ar al pl ht hu hv hw
    subst ht; subst hu; subst hv; subst hw
    rfl

/-- Witness for C1: the artist sub-query fails while the other three
succeed; the error field is non-empty and the result collections are
untouched. -/
theorem c1_search_fail_fast_witness :
    (∃ e, (Except.error "artist failed" : Except String SearchArtists) = Except.error e) ∧
    (get_search_results
        (tryJoin4 (Except.ok { tracks := { items := [] } })
          (Except.error "artist failed") (Except.ok { albums := { items := [] } })
          (Except.ok { playlists := { items := [] } }))
        (Except.ok []) app0).api_error.isSome = true ∧
    (get_search_results
        (tryJoin4 (Except.ok { tracks := { items := [] } })
          (Except.error "artist failed") (Except.ok { albums := { items := [] } })
          (Except.ok { playlists := { items := [] } }))
        (Except.ok []) app0).search_results = app0.search_results := by
  refine ⟨⟨"artist failed", rfl⟩, ?_⟩
  exact (c1_search_fail_fast (Except.ok { tracks := { items := [] } })
    (Except.error "artist failed") (Except.ok { albums := { items := [] } })
    (Except.ok { playlists := { items := [] } }) (Except.ok []) app0).1
    (Or.inr (Or.inl ⟨"artist failed", rfl⟩))

/-- C2 counterexample: a failed credential refresh leaves the error field
empty (the claim says every failed remote call makes it non-empty). -/
theorem c2_refresh_failure_counterexample :
    app0.api_error = none ∧
    (refresh_authentication none 0 network0 app0).2.api_error = none ∧
    (refresh_authentication none 0 network0 app0).1 = network0 :=
  ⟨rfl, rfl, rfl⟩

/-- C2 amended: the playlists, user-profile, saved-membership, search and
saved-tracks call sites route failures to the error field, but the
device, playback, playlist-tracks and made-for-you fetches and the
credential refresh discard failures silently, leaving the state
unchanged; a failed refresh keeps the old credential and client handle. -/
theorem c2_error_routing_amended :
    (∀ e a, get_user (Except.error e) a = handle_error a e) ∧
    (∀ e u a, handle_get_playlists (Except.error e) u a = get_user u (handle_error a e)) ∧
    (∀ ids e a, current_user_saved_tracks_contains ids (Except.error e) a = handle_error a e) ∧
    (∀ e sr a, get_search_results (Except.error e) sr a = handle_error a e) ∧
    (∀ e nav a, get_current_user_saved_tracks (Except.error e) nav a = handle_error a e) ∧
    (∀ e a, get_devices (Except.error e) a = a) ∧
    (∀ e sr now a, get_current_playback (Except.error e) sr now a = a) ∧
    (∀ e sr a, get_playlist_tracks (Except.error e) sr a = some a) ∧
    (∀ e sr a, get_made_for_you_playlist_tracks (Except.error e) sr a = some a) ∧
    (∀ now n a, refresh_authentication none now n a = (n, a)) := by
  refine ⟨?_, ?_, ?_, ?_, ?_, ?_, ?_, ?_, ?_, ?_⟩ <;> intros <;> rfl

/-- C3 counterexample: after a playlist fetch returning five playlists and
then one returning zero, the playlist cursor is `some 0`, not `none`. -/
theorem c3_stale_cursor_counterexample :
    (handle_get_playlists (Except.ok { items := [] }) (Except.ok { id := "u1" })
        (handle_get_playlists (Except.ok page5) (Except.ok { id := "u1" }) app0)).playlists =
      some { items := [] } ∧
    (handle_get_playlists (Except.ok { items := [] }) (Except.ok { id := "u1" })
        (handle_get_playlists (Except.ok page5) (Except.ok { id := "u1" }) app0)).selected_playlist_index ≠
      none := by
  exact ⟨rfl, by decide⟩

/-- C3 amended: a successful playlist fetch stores the page and resets the
cursor to index 0 unconditionally: a valid index in [0, len) when the
page is non-empty, but `some 0` rather than `none` when it is empty. -/
theorem c3_cursor_reset_amended (p : Page SimplifiedPlaylist)
    (u : Except String PrivateUser) (a : App) :
    (handle_get_playlists (Except.ok p) u a).selected_playlist_index = some 0 ∧
    (handle_get_playlists (Except.ok p) u a).playlists = some p := by
  cases u <;> exact ⟨rfl, rfl⟩

/-- C4 counterexample: a successful device fetch returning zero devices
leaves the devices collection and cursor untouched (the claim says the
collection is set to empty and the cursor to `none`). -/
theorem c4_zero_devices_counterexample :
    (get_devices (Except.ok { devices := [] }) appDev).devices =
      some { devices := [{ id := "d1" }] } ∧
    (get_devices (Except.ok { devices := [] }) appDev).devices ≠ some { devices := [] } ∧
    (get_devices (Except.ok { devices := [] }) appDev).selected_device_index = some 0 := by
  exact ⟨rfl, by decide, rfl⟩

/-- C4 amended: when the device fetch succeeds with zero devices, the
devices collection and the device cursor are left unchanged, and the
device-selection entry is still pushed (the push happens regardless of
result emptiness). -/
theorem c4_zero_devices_amended (a : App) :
    get_devices (Except.ok { devices := [] }) a =
      push_navigation_stack RouteId.SelectedDevice ActiveBlock.SelectDevice a ∧
    (get_devices (Except.ok { devices := [] }) a).devices = a.devices ∧
    (get_devices (Except.ok { devices := [] }) a).selected_device_index =
      a.selected_device_index ∧
    (get_devices (Except.ok { devices := [] }) a).navigation_stack =
      { id := RouteId.SelectedDevice, active_block := ActiveBlock.SelectDevice } ::
        a.navigation_stack := by
  exact ⟨rfl, rfl, rfl, rfl⟩

/-- C5: back-navigation pops exactly two entries when the popped entry is
the search route (given enough entries beneath), exactly one entry for
any other route, and a pop signalling underflow exits the application
with the stack still non-empty. -/
theorem c5_back_navigation (a : App) (r s t : Route) (rest : List Route) :
    (a.navigation_stack = r :: s :: t :: rest → r.id = RouteId.Search →
      back_navigation a = (false, { a with navigation_stack := t :: rest })) ∧
    (a.navigation_stack = r :: s :: rest → r.id ≠ RouteId.Search →
      back_navigation a = (false, { a with navigation_stack := s :: rest })) ∧
    (a.navigation_stack = [r] → back_navigation a = (true, a)) ∧
    (a.navigation_stack = [r, s] → r.id = RouteId.Search →
      back_navigation a = (true, { a with navigation_stack := [s] })) := by
  refine ⟨?_, ?_, ?_, ?_⟩
  · intro h hid
    simp [back_navigation, pop_navigation_stack, h, hid]
  · intro h hid
    cases rest with
    | nil => simp [back_navigation, pop_navigation_stack, h, hid]
    | cons x xs => simp [back_navigation, pop_navigation_stack, h, hid]
  · intro h
    have ha : { a with navigation_stack := [r] } = a := by
      cases a
      simp_all
    simp [back_navigation, pop_navigation_stack, h, ha]
  · intro h hid
    simp [back_navigation, pop_navigation_stack, h, hid]

/-- Witness for C5: with the search route on top of a three-entry stack,
back-navigation removes two entries and does not exit. -/
theorem c5_back_navigation_witness :
    appNav.navigation_stack = routeSearch :: routeTrackTable :: routeHome :: [] ∧
    routeSearch.id = RouteId.Search ∧
    back_navigation appNav = (false, { appNav with navigation_stack := [routeHome] }) :=
  ⟨rfl, rfl,
    (c5_back_navigation appNav routeSearch routeTrackTable routeHome []).1 rfl rfl⟩

/-- C6: a fetched playback context with no active track updates the context
and the poll timestamp and leaves everything else (the liked-track set
included) unchanged; a context whose track carries an id first runs the
single-id saved check and merges it into the liked-track set. -/
theorem c6_playback_state (c : Option FullTrack) (sr : Except String (List Bool))
    (now : Int) (a : App) :
    (c = none →
      get_current_playback (Except.ok (some c)) sr now a =
        { a with current_playback_context := some c,
                 instant_since_last_current_playback_poll := now }) ∧
    (∀ track track_id, c = some track → track.id = some track_id →
      get_current_playback (Except.ok (some c)) sr now a =
        { current_user_saved_tracks_contains [track_id] sr a with
            current_playback_context := some c,
            instant_since_last_current_playback_poll := now }) := by
  constructor
  · intro h
    subst h
    rfl
  · intro track track_id hc hid
    subst hc
    simp [get_current_playback, hid]

/-- Witness for C6: a concrete context with no active track updates the
context and timestamp only. -/
theorem c6_playback_state_witness :
    (none : Option FullTrack) = none ∧
    get_current_playback (Except.ok (some none)) (Except.ok []) 42 app0 =
      { app0 with current_playback_context := some none,
                  instant_since_last_current_playback_poll := 42 } :=
  ⟨rfl, (c6_playback_state none (Except.ok []) 42 app0).1 rfl⟩

/-- C7 counterexample: a successful saved-library fetch with the navigate
flag set pushes the track-table entry even though the track-table screen
is already on top (the claim says the push happens iff the top is not
already the track-table screen). -/
theorem c7_saved_tracks_counterexample :
    (get_current_route appTT).id = RouteId.TrackTable ∧
    (get_current_user_saved_tracks (Except.ok savedPage1) true appTT).navigation_stack =
      [routeTrackTable, routeTrackTable] := by
  exact ⟨rfl, by decide⟩

/-- C7 amended: the playlist and curated track-page fetches push the
track-table entry iff the top of the stack is not already the
track-table screen; the saved-library fetch instead pushes iff its
navigate flag is set, regardless of the current top. -/
theorem c7_track_page_navigation_amended (page : Page PlaylistTrack)
    (saved_page : Page SavedTrack) (sr : Except String (List Bool))
    (should_navigate : Bool) (a : App) :
    (∀ a1, get_playlist_tracks (Except.ok page) sr a = some a1 →
      a1.navigation_stack =
        if (get_current_route a).id ≠ RouteId.TrackTable then
          { id := RouteId.TrackTable, active_block := ActiveBlock.TrackTable } ::
            a.navigation_stack
        else a.navigation_stack) ∧
    (∀ a1, get_made_for_you_playlist_tracks (Except.ok page) sr a = some a1 →
      a1.navigation_stack =
        if (get_current_route a).id ≠ RouteId.TrackTable then
          { id := RouteId.TrackTable, active_block := ActiveBlock.TrackTable } ::
            a.navigation_stack
        else a.navigation_stack) ∧
    ((get_current_user_saved_tracks (Except.ok saved_page) should_navigate a).navigation_stack =
      if should_navigate then
        { id := RouteId.TrackTable, active_block := ActiveBlock.TrackTable } ::
          a.navigation_stack
      else a.navigation_stack) := by
  refine ⟨?_, ?_, ?_⟩
  · intro a1 h1
    cases hx : extract_playlist_tracks page.items with
    | none =>
        simp [get_playlist_tracks, set_playlist_tracks_to_table, hx] at h1
    | some tracks =>
        simp [get_playlist_tracks, set_playlist_tracks_to_table, hx] at h1
        subst h1
        have hstack : (set_tracks_to_table tracks sr a).navigation_stack =
            a.navigation_stack := set_tracks_navigation_stack tracks sr a
        by_cases hroute : (get_current_route a).id = RouteId.TrackTable <;>
          simp_all [get_current_route, push_navigation_stack]
  · intro a1 h1
    cases hx : extract_playlist_tracks page.items with
    | none =>
        simp [get_made_for_you_playlist_tracks, set_playlist_tracks_to_table, hx] at h1
    | some tracks =>
        simp [get_made_for_you_playlist_tracks, set_playlist_tracks_to_table, hx] at h1
        subst h1
        have hstack : (set_tracks_to_table tracks sr a).navigation_stack =
            a.navigation_stack := set_tracks_navigation_stack tracks sr a
        by_cases hroute : (get_current_route a).id = RouteId.TrackTable <;>
          simp_all [get_current_route, push_navigation_stack]
  · cases should_navigate <;>
      simp [get_current_user_saved_tracks, set_saved_tracks_to_table,
        add_saved_tracks_page, push_navigation_stack]

/-- Witness for C7: a concrete successful playlist-track fetch from the
root screen pushes the track-table entry. -/
theorem c7_track_page_navigation_witness :
    get_playlist_tracks (Except.ok ptPage1) (Except.ok [true]) app0 = some appAfterPT ∧
    appAfterPT.navigation_stack =
      (if (get_current_route app0).id ≠ RouteId.TrackTable then
        { id := RouteId.TrackTable, active_block := ActiveBlock.TrackTable } ::
          app0.navigation_stack
      else app0.navigation_stack) :=
  ⟨rfl,
    (c7_track_page_navigation_amended ptPage1 savedPage1 (Except.ok [true]) true app0).1
      appAfterPT rfl⟩

/-- C8: the render loop dispatches a refresh exactly when now is strictly
past the stored expiry, and a refresh completing at some instant sets
the new expiry to that instant plus the reported lifetime minus the
10-second margin, which lies strictly in the future whenever the
lifetime exceeds the margin. -/
theorem c8_credential_expiry (now refresh_now expiry : Int) (token_info : TokenInfo) :
    (should_refresh now expiry = true ↔ expiry < now) ∧
    (get_spotify refresh_now token_info).2 =
      refresh_now + (token_info.expires_in : Int) - 10 ∧
    ((10 : Int) < (token_info.expires_in : Int) →
      refresh_now < (get_spotify refresh_now token_info).2) := by
  refine ⟨by simp [should_refresh], rfl, fun h => ?_⟩
  simp only [get_spotify]
  omega

/-- Witness for C8: a 60-second token refreshed at instant 5 gets expiry 55,
strictly in the future. -/
theorem c8_credential_expiry_witness :
    (10 : Int) < ((60 : Nat) : Int) ∧
    (5 : Int) < (get_spotify 5 { access_token := "t", expires_in := 60 }).2 :=
  ⟨by norm_num,
    (c8_credential_expiry 0 5 0 { access_token := "t", expires_in := 60 }).2.2 (by norm_num)⟩

/-- C9: a playlist or curated track-page fetch panics (modelled as `none`)
exactly when the returned page contains an item with an absent track
field: totality of the handlers needs every item to carry a track. -/
theorem c9_track_extraction_partial (page : Page PlaylistTrack)
    (sr : Except String (List Bool)) (a : App) :
    (get_playlist_tracks (Except.ok page) sr a = none ↔
      ∃ item ∈ page.items, item.track = none) ∧
    (get_made_for_you_playlist_tracks (Except.ok page) sr a = none ↔
      ∃ item ∈ page.items, item.track = none) := by
  constructor
  · rw [← extract_playlist_tracks_eq_none]
    cases hx : extract_playlist_tracks page.items <;>
      simp [get_playlist_tracks, set_playlist_tracks_to_table, hx]
  · rw [← extract_playlist_tracks_eq_none]
    cases hx : extract_playlist_tracks page.items <;>
      simp [get_made_for_you_playlist_tracks, set_playlist_tracks_to_table, hx]

/-- C10: the render loop's expiry copy is captured once and never written by
any dispatched operation, so once it has passed, every iteration's check
keeps dispatching a refresh no matter how many refreshes succeeded in
the meantime. -/
theorem c10_ui_expiry_frozen (evs : List (RemoteOutcomes × IoEvent)) (s s1 : SystemState)
    (h : run_events evs s = some s1) :
    s1.ui_token_expiry = s.ui_token_expiry ∧
    (∀ now, s.ui_token_expiry < now → should_refresh now s1.ui_token_expiry = true) := by
  have key := run_events_ui_expiry evs s s1 h
  refine ⟨key, fun now hn => ?_⟩
  rw [key]
  simpa [should_refresh] using hn

/-- Witness for C10: after one successful refresh (which does move the
dispatcher's private expiry), the render loop's copy is unchanged and
its check still fires. -/
theorem c10_ui_expiry_frozen_witness :
    run_events [(outcome0, IoEvent.RefreshAuthentication)] sys0 = some sys1 ∧
    sys1.network.spotify_token_expiry ≠ sys0.network.spotify_token_expiry ∧
    sys1.ui_token_expiry = sys0.ui_token_expiry ∧
    should_refresh 6 sys1.ui_token_expiry = true := by
  refine ⟨rfl, by decide, ?_, ?_⟩
  · exact (c10_ui_expiry_frozen [(outcome0, IoEvent.RefreshAuthentication)] sys0 sys1 rfl).1
  · exact (c10_ui_expiry_frozen [(outcome0, IoEvent.RefreshAuthentication)] sys0 sys1 rfl).2
      6 (by decide)

end SpotifyTui
